import Mathlib

/-!
Shallow embedding of `src/BlazorDataOrchestrator.JobCreatorTemplate/Code/CodePython/main.py`.

The Python module defines a `JobLogger` class (console / relational / table-store
sinks) and an `execute_job` function (the execution lifecycle).  External
effects — the pyodbc connection, the Azure table client, the weather HTTP
endpoint, the wall clock — are modelled by an `Env` oracle fixing, for one run,
whether each external operation succeeds and what it returns, and a `World`
state recording every observable effect (console lines, table entities written,
relational rows, the open/closed state of the driver connection).  Python
exceptions raised by external calls are modelled by the corresponding `Env`
flag; an unhandled exception inside the lifecycle's `try` body is modelled by an
injection point `Env.inject` naming the statement index at which it is raised
and the exception message.  All functions are total: a Lean function returning
normally corresponds to the Python function returning without an uncaught
exception, and the lifecycle's propagated exception is reified in
`RunOutcome.raised`.
-/

/-! ### Calendar arithmetic for `datetime` modelling

A Python `datetime` value is modelled as an `Int`: seconds since
1970-01-01 00:00:00.  `civilFromDays` is the standard proleptic-Gregorian
conversion used to realise `strftime` fields. -/

def pad2 (n : Nat) : String :=
  if n < 10 then "0" ++ toString n else toString n

def daysOf (t : Int) : Int := t.fdiv 86400

def secOfDay (t : Int) : Nat := (t - 86400 * daysOf t).toNat

def civilFromDays (z : Int) : Int × Nat × Nat :=
  let z2 := z + 719468
  let era := z2.fdiv 146097
  let doe := (z2 - era * 146097).toNat
  let yoe := (doe - doe / 1460 + doe / 36524 - doe / 146096) / 365
  let y : Int := (yoe : Int) + era * 400
  let doy := doe - (365 * yoe + yoe / 4 - yoe / 100)
  let mp := (5 * doy + 2) / 153
  let d := doy - (153 * mp + 2) / 5 + 1
  let m := if mp < 10 then mp + 3 else mp - 9
  (if m ≤ 2 then y + 1 else y, m, d)

def dateOf (t : Int) : Int × Nat × Nat := civilFromDays (daysOf t)

def hourOf (t : Int) : Nat := secOfDay t / 3600

def minuteOf (t : Int) : Nat := secOfDay t % 3600 / 60

/-- `datetime.utcnow().strftime("%Y-%m-%d %H:%M:%S")`, the console timestamp. -/
def fmtTs (t : Int) : String :=
  let ymd := dateOf t
  toString ymd.1 ++ "-" ++ pad2 ymd.2.1 ++ "-" ++ pad2 ymd.2.2 ++ " " ++
    pad2 (hourOf t) ++ ":" ++ pad2 (minuteOf t) ++ ":" ++ pad2 (secOfDay t % 60)

/-- `local_time.strftime("%m/%d/%Y %I:%M")`: zero-padded month/day, year,
12-hour clock (00 maps to 12) and minute. -/
def strftime_mdY_IM (t : Int) : String :=
  let ymd := dateOf t
  let h12 := if hourOf t % 12 = 0 then 12 else hourOf t % 12
  pad2 ymd.2.1 ++ "/" ++ pad2 ymd.2.2 ++ "/" ++ toString ymd.1 ++ " " ++
    pad2 h12 ++ ":" ++ pad2 (minuteOf t)

/-- `local_time.strftime("%p")` in the C/English locale. -/
def strftime_p (t : Int) : String :=
  if hourOf t < 12 then "AM" else "PM"

/-- Python `str.lower()` on ASCII strings: lower-case each character. -/
def strLower (s : String) : String := ⟨s.data.map Char.toLower⟩

/-- The previous-run-time format built at main.py:240:
`local_time.strftime("%m/%d/%Y %I:%M") + local_time.strftime("%p").lower()`. -/
def fmtLocalRun (t : Int) : String :=
  strftime_mdY_IM t ++ strLower (strftime_p t)

/-! ### Relational store model -/

/-- One row of the `JobData` table (the columns the program touches). -/
structure JobDataRow where
  id : Nat
  jobId : Int
  fieldDesc : String
  stringValue : Option String
  dateValue : Option Int
deriving DecidableEq, Repr

/-- The relational store: the `JobData` table plus the set of job-instance ids
whose `JobInstances` row has been marked `HasError = 1`. -/
structure Db where
  jobData : List JobDataRow
  nextRowId : Nat
  erroredInstances : List Int
deriving DecidableEq, Repr

def lastRunDesc : String := "Last Job Run Time"

def isLastRunRow (jobId : Int) (r : JobDataRow) : Bool :=
  r.jobId == jobId && r.fieldDesc == lastRunDesc

/-- `SELECT JobDateValue FROM JobData WHERE JobId = ? AND JobFieldDescription =
'Last Job Run Time'` with `fetchone`: first matching row's date value. -/
def selectLastRunTime (db : Db) (jobId : Int) : Option (Option Int) :=
  (db.jobData.find? (isLastRunRow jobId)).map (fun r => r.dateValue)

/-- `SELECT Id FROM JobData WHERE JobId = ? AND JobFieldDescription = 'Last Job
Run Time'` with `fetchone`: first matching row's id. -/
def selectLastRunRowId (db : Db) (jobId : Int) : Option Nat :=
  (db.jobData.find? (isLastRunRow jobId)).map (fun r => r.id)

/-- The upsert in `execute_job`'s finally block (main.py:300-320): update the
existing `'Last Job Run Time'` row if one exists, otherwise insert one. -/
def setLastRunTime (db : Db) (jobId : Int) (t : Int) : Db :=
  match selectLastRunRowId db jobId with
  | some rid =>
      { db with jobData := db.jobData.map (fun r =>
          if r.id == rid then { r with dateValue := some t } else r) }
  | none =>
      { db with
        jobData := db.jobData ++
          [{ id := db.nextRowId, jobId := jobId, fieldDesc := lastRunDesc,
             stringValue := none, dateValue := some t }],
        nextRowId := db.nextRowId + 1 }

/-- `UPDATE JobInstances SET HasError = 1 ... WHERE Id = ?` (main.py:139-143). -/
def markInstanceError (db : Db) (jobInstanceId : Int) : Db :=
  if jobInstanceId ∈ db.erroredInstances then db
  else { db with erroredInstances := db.erroredInstances ++ [jobInstanceId] }

/-- `INSERT INTO JobData (JobId, JobFieldDescription, JobStringValue, ...)`
(main.py:148-151), the per-error audit row. -/
def insertErrorRecord (db : Db) (jobId : Int) (fieldDesc msg : String) : Db :=
  { db with
    jobData := db.jobData ++
      [{ id := db.nextRowId, jobId := jobId, fieldDesc := fieldDesc,
         stringValue := some msg, dateValue := none }],
    nextRowId := db.nextRowId + 1 }

/-! ### Table-store model -/

/-- One Azure table entity as written by the logger.  `RowKey` (a `uuid4` in
the source) is modelled by the run's uuid counter, which is never reused. -/
structure Entity where
  partitionKey : String
  rowKey : Nat
  action : String
  details : String
  level : String
  ts : Int
  jobId : Int
  jobInstanceId : Int
deriving DecidableEq, Repr

/-! ### Environment and world -/

/-- Outcome of the weather HTTP fetch and its parsing (main.py:255-284):
success with the extracted fields, a `urllib.error.URLError` (network failure
or connect timeout), or any other exception (malformed JSON, missing keys,
read timeout). -/
inductive WeatherOutcome where
  | ok (tempC tempF humidity desc : String)
  | urlError (reason : String)
  | otherError (msg : String)
deriving DecidableEq, Repr

/-- The `app_settings` JSON blob as `execute_job` distinguishes it
(main.py:197-203): falsy/absent, malformed (raises `JSONDecodeError`), or a
parsed object whose `ConnectionStrings` key may be absent, and whose
`blazororchestratordb` / `tables` sub-keys may be absent. -/
inductive SettingsBlob where
  | absent
  | malformed
  | parsed (connectionStrings : Option (Option String × Option String))
deriving DecidableEq

/-- main.py:197-203: extract `(connection_string, table_connection_string)`;
every missing or malformed layer yields the empty string. -/
def parseSettings : SettingsBlob → String × String
  | .absent => ("", "")
  | .malformed => ("", "")
  | .parsed none => ("", "")
  | .parsed (some (dbcs, tbcs)) => (dbcs.getD "", tbcs.getD "")

/-- Oracle fixing the behaviour of every external dependency for one run.
`tableCreateFails` is indexed by the run's table-operation counter so each
`create_entity` call can fail independently.  `inject` models an unhandled
exception raised at statement index `k` (0-6) of `execute_job`'s try body,
carrying `str(e)`. -/
structure Env where
  hasPyodbc : Bool
  hasAzureTables : Bool
  connectOk : Bool
  resolveQuery : Except Unit (Option Int)
  tableConnectOk : Bool
  tableCreateFails : Nat → Bool
  relErrorLogFails : Bool
  prevRunReadRaises : Bool
  weather : WeatherOutcome
  upsertFails : Bool
  nowUtc : Int
  nowLocal : Int
  inject : Option (Nat × String)

/-- All observable effects of a run.  `errorCalls` instruments `log_error`:
one `(message, stack_trace)` pair is appended per invocation. -/
structure World where
  console : List String
  entities : List Entity
  db : Db
  uuidCounter : Nat
  tableOps : Nat
  connOpen : Bool
  errorCalls : List (String × String)
deriving DecidableEq, Repr

def World.print (w : World) (s : String) : World :=
  { w with console := w.console ++ [s] }

/-! ### JobLogger -/

/-- State of a `JobLogger` after `__init__`: whether `self.connection` /
`self.table_client` are non-None, and the stored ids. -/
structure JobLogger where
  connection : Bool
  job_instance_id : Int
  job_id : Int
  table_client : Bool
deriving DecidableEq, Repr

def connWarnLine : String := "Warning: Could not connect to database"
def resolveWarnLine : String := "Warning: Could not get job_id from instance"
def noAzureLine : String :=
  "[ERROR!] azure-data-tables package is not installed. Cannot log to Azure Table Storage."
def noTableConnLine : String :=
  "[ERROR!] Table connection string is missing. Cannot log to Azure Table Storage."
def tableConnectErrLine : String := "[ERROR!] Could not connect to Azure Table Storage"
def tableProgressErrLine : String := "[ERROR!] Failed to log to Azure Table Storage"
def relErrLine : String := "Warning: Failed to log error to database"
def tableErrLine : String := "[ERROR!] Failed to log error to Azure Table Storage"
def prevReadWarnLine : String := "Warning: Failed to read Last Job Run Time"
def upsertWarnLine : String := "Warning: Failed to update Last Job Run Time"

/-- The console line printed by `log_progress` (main.py:109). -/
def progressLine (env : Env) (level message : String) : String :=
  "[" ++ fmtTs env.nowUtc ++ "] [" ++ level ++ "] " ++ message

/-- The console line printed by `log_error` (main.py:131). -/
def errorLine (env : Env) (message : String) : String :=
  "[" ++ fmtTs env.nowUtc ++ "] [ERROR] " ++ message

/-- `JobLogger._get_job_id_from_instance` (main.py:84-100): 0 when there is no
connection or `job_instance_id <= 0`; on a query failure, warn and return 0;
otherwise the joined `JobId`, or 0 when no row matches. -/
def get_job_id_from_instance (env : Env) (connection : Bool) (job_instance_id : Int)
    (w : World) : Int × World :=
  if ¬ connection ∨ job_instance_id ≤ 0 then (0, w)
  else
    match env.resolveQuery with
    | .error _ => (0, w.print resolveWarnLine)
    | .ok none => (0, w)
    | .ok (some jid) => (jid, w)

/-- `JobLogger.__init__` (main.py:30-82).  The connection-string dialect
translation (main.py:41-64) is a pure rewrite fed to the external
`pyodbc.connect`; the driver call's outcome is the boundary `env.connectOk`.
A successful connect opens the driver connection and resolves `job_id`;
failure warns and leaves `connection = None`.  The table client is present
exactly when the package is installed, the table connection string is
non-empty, and the service connect succeeds. -/
def JobLogger.init (env : Env) (connection_string : String) (job_instance_id : Int)
    (table_connection_string : String) (w : World) : JobLogger × World :=
  let cjw : Bool × Int × World :=
    if env.hasPyodbc ∧ connection_string ≠ "" then
      if env.connectOk then
        let jw := get_job_id_from_instance env true job_instance_id
          { w with connOpen := true }
        (true, jw.1, jw.2)
      else (false, 0, w.print connWarnLine)
    else (false, 0, w)
  let tw : Bool × World :=
    if ¬ env.hasAzureTables then (false, cjw.2.2.print noAzureLine)
    else if table_connection_string = "" then (false, cjw.2.2.print noTableConnLine)
    else if env.tableConnectOk then (true, cjw.2.2)
    else (false, cjw.2.2.print tableConnectErrLine)
  ({ connection := cjw.1, job_instance_id := job_instance_id,
     job_id := cjw.2.1, table_client := tw.1 }, tw.2)

/-- `JobLogger._get_partition_key` (main.py:102-104). -/
def JobLogger.get_partition_key (L : JobLogger) : String :=
  toString L.job_id ++ "-" ++ toString L.job_instance_id

/-- `JobLogger.log_progress` (main.py:106-126): print the timestamped console
line; when the table client is present and `job_id > 0`, attempt one
`JobProgress` entity, and on failure only print the table error line. -/
def JobLogger.log_progress (env : Env) (L : JobLogger) (message level : String)
    (w : World) : World :=
  let w := w.print (progressLine env level message)
  if L.table_client ∧ 0 < L.job_id then
    if env.tableCreateFails w.tableOps then
      ({ w with uuidCounter := w.uuidCounter + 1,
                tableOps := w.tableOps + 1 }).print tableProgressErrLine
    else
      { w with
        entities := w.entities ++
          [{ partitionKey := L.get_partition_key, rowKey := w.uuidCounter,
             action := "JobProgress", details := message, level := level,
             ts := env.nowUtc, jobId := L.job_id,
             jobInstanceId := L.job_instance_id }],
        uuidCounter := w.uuidCounter + 1,
        tableOps := w.tableOps + 1 }
  else w

/-- The relational stage of `JobLogger.log_error` (main.py:134-155): when
connected and `job_instance_id > 0`, mark the instance errored and (when
`job_id > 0`) insert one audit row with a fresh field descriptor; a failure
anywhere in the block is caught, warned to console, and leaves no committed
change. -/
def JobLogger.log_error_rel (env : Env) (L : JobLogger) (error_message : String)
    (w : World) : World :=
  if L.connection ∧ 0 < L.job_instance_id then
    if env.relErrorLogFails then w.print relErrLine
    else
      let w := { w with db := markInstanceError w.db L.job_instance_id }
      if 0 < L.job_id then
        { w with
          db := insertErrorRecord w.db L.job_id
            ("Error_" ++ toString w.uuidCounter) error_message,
          uuidCounter := w.uuidCounter + 1 }
      else w
  else w

/-- `JobLogger.log_error` (main.py:128-173): print the `[ERROR]` console line;
then run the relational stage; then, independently, when the table client is
present and `job_id > 0`, attempt one `JobError` entity, a failure only
printing the table error line. -/
def JobLogger.log_error (env : Env) (L : JobLogger) (message stack_trace : String)
    (w : World) : World :=
  let w := { w with errorCalls := w.errorCalls ++ [(message, stack_trace)] }
  let w := w.print (errorLine env message)
  let error_message :=
    if stack_trace ≠ "" then message ++ "\n" ++ stack_trace else message
  let w := L.log_error_rel env error_message w
  if L.table_client ∧ 0 < L.job_id then
    if env.tableCreateFails w.tableOps then
      ({ w with uuidCounter := w.uuidCounter + 1,
                tableOps := w.tableOps + 1 }).print tableErrLine
    else
      { w with
        entities := w.entities ++
          [{ partitionKey := L.get_partition_key, rowKey := w.uuidCounter,
             action := "JobError", details := error_message, level := "Error",
             ts := env.nowUtc, jobId := L.job_id,
             jobInstanceId := L.job_instance_id }],
        uuidCounter := w.uuidCounter + 1,
        tableOps := w.tableOps + 1 }
  else w

/-- The error pyodbc raises when an operation — `close` included — is invoked
on an already-closed connection. -/
def closedConnErrMsg : String := "ProgrammingError: Attempt to use a closed connection."

/-- `JobLogger.close` (main.py:175-178): when `self.connection` is non-None,
call the driver's `close`.  The attribute itself is never cleared, so a later
call re-invokes the driver's close; pyodbc raises `ProgrammingError` when the
handle has already been closed.  The second component carries the raised
error, `none` on a normal return. -/
def JobLogger.close (L : JobLogger) (w : World) : World × Option String :=
  if L.connection then
    if w.connOpen then ({ w with connOpen := false }, none)
    else (w, some closedConnErrMsg)
  else (w, none)

/-! ### Execution lifecycle -/

def startedMsg : String := "Job started"
def completedMsg : String := "Job completed successfully!"
def fetchingMsg : String := "Fetching weather data for Los Angeles, CA"

def execInfo (job_id job_instance_id job_schedule_id job_agent_id : Int) : String :=
  "Executing Job ID: " ++ toString job_id ++ ", Instance: " ++ toString job_instance_id
    ++ ", Schedule: " ++ toString job_schedule_id ++ ", Agent: " ++ toString job_agent_id

def pkInfo (job_id job_instance_id : Int) : String :=
  "Log partition key: " ++ toString job_id ++ "-" ++ toString job_instance_id

def prevRunMsg (t : Int) : String :=
  "Previous time the job was run: " ++ fmtLocalRun t

def weatherInfo (tempC tempF humidity desc : String) : String :=
  "Los Angeles, CA - Temperature: " ++ tempF ++ "°F (" ++ tempC ++ "°C), Humidity: "
    ++ humidity ++ "%, Conditions: " ++ desc

def urlErrMsg (reason : String) : String :=
  "Failed to fetch weather data: " ++ reason

def procErrMsg (msg : String) : String :=
  "Error processing weather data: " ++ msg

/-- `traceback.format_exc()` for the exception whose `str` is `msg`. -/
def format_exc (msg : String) : String :=
  "Traceback (most recent call last): " ++ msg

/-- The message carried by `env.inject` when it fires at statement index `k`. -/
def injectAt (env : Env) (k : Nat) : Option String :=
  match env.inject with
  | some (j, msg) => if j = k then some msg else none
  | none => none

/-- main.py:208-209: adopt the resolved job id when the caller passed a
non-positive one. -/
def effectiveJobId (L : JobLogger) (job_id : Int) : Int :=
  if job_id ≤ 0 ∧ 0 < L.job_id then L.job_id else job_id

/-- The previous-run-time step (main.py:225-246): when connected and
`job_id > 0`, read the stored time; a read failure only warns to console; a
present, non-null value is converted to local time and announced (console
print, then `log_progress`, then appended to the logs). -/
def prevStep (env : Env) (L : JobLogger) (job_id : Int) (logs : List String)
    (w : World) : List String × World :=
  if L.connection ∧ 0 < job_id then
    if env.prevRunReadRaises then (logs, w.print prevReadWarnLine)
    else
      match selectLastRunTime w.db job_id with
      | some (some t) =>
        let msg := prevRunMsg (t + (env.nowLocal - env.nowUtc))
        (logs ++ [msg], L.log_progress env msg "Info" (w.print msg))
      | _ => (logs, w)
  else (logs, w)

/-- The weather step's guarded fetch (main.py:255-284): on success announce the
summary; a `URLError` or any other exception is caught and announced as a
Warning-level progress event. -/
def weatherStep (env : Env) (L : JobLogger) (logs : List String)
    (w : World) : List String × World :=
  match env.weather with
  | .ok tempC tempF humidity desc =>
    let info := weatherInfo tempC tempF humidity desc
    (logs ++ [info], L.log_progress env info "Info" (w.print info))
  | .urlError reason =>
    let m := urlErrMsg reason
    (logs ++ [m], L.log_progress env m "Warning" (w.print m))
  | .otherError e =>
    let m := procErrMsg e
    (logs ++ [m], L.log_progress env m "Warning" (w.print m))

/-- The body of `execute_job`'s try block (main.py:211-287), with an optional
unhandled exception injected before statement index 0-6.  Returns the log list
accumulated so far, the world, and the propagating exception message if any.
Statement indices: 0 = "Job started", 1 = the exec-info event, 2 = the
partition-key event, 3 = the previous-run-time block, 4 = the "Fetching
weather" event, 5 = the weather fetch, 6 = the completion event. -/
def runSteps (env : Env) (L : JobLogger)
    (job_id job_instance_id job_schedule_id job_agent_id : Int)
    (w : World) : List String × World × Option String :=
  match injectAt env 0 with
  | some msg => ([], w, some msg)
  | none =>
  let w := L.log_progress env startedMsg "Info" w
  let logs := [startedMsg]
  match injectAt env 1 with
  | some msg => (logs, w, some msg)
  | none =>
  let info := execInfo job_id job_instance_id job_schedule_id job_agent_id
  let w := L.log_progress env info "Info" (w.print info)
  let logs := logs ++ [info]
  match injectAt env 2 with
  | some msg => (logs, w, some msg)
  | none =>
  let info := pkInfo job_id job_instance_id
  let w := L.log_progress env info "Info" (w.print info)
  let logs := logs ++ [info]
  match injectAt env 3 with
  | some msg => (logs, w, some msg)
  | none =>
  let lw := prevStep env L job_id logs w
  match injectAt env 4 with
  | some msg => (lw.1, lw.2, some msg)
  | none =>
  let w := L.log_progress env fetchingMsg "Info" lw.2
  let logs := lw.1 ++ [fetchingMsg]
  match injectAt env 5 with
  | some msg => (logs, w, some msg)
  | none =>
  let lw := weatherStep env L logs w
  match injectAt env 6 with
  | some msg => (lw.1, lw.2, some msg)
  | none =>
  (lw.1 ++ [completedMsg], L.log_progress env completedMsg "Info" lw.2, none)

/-- The finally block's last-run-time upsert (main.py:296-322): when a
connection is held and `job_id > 0`, upsert using `datetime.utcnow()` taken at
finalization; any failure is caught and warned to console. -/
def finallyBlock (env : Env) (L : JobLogger) (job_id : Int) (w : World) : World :=
  if L.connection ∧ 0 < job_id then
    if env.upsertFails then w.print upsertWarnLine
    else { w with db := setLastRunTime w.db job_id env.nowUtc }
  else w

/-- Result of one run: the `logs` list `execute_job` builds, the final world,
and the exception message propagated to the caller (`none` on success). -/
structure RunOutcome where
  logs : List String
  world : World
  raised : Option String
deriving DecidableEq, Repr

def World.initial (db0 : Db) : World :=
  { console := [], entities := [], db := db0, uuidCounter := 0, tableOps := 0,
    connOpen := false, errorCalls := [] }

/-- `execute_job` (main.py:181-326): parse the settings, construct the logger
(resolving `job_id`), adopt the resolved id when the caller's is non-positive,
run the try body; on an unhandled exception run the except block (one
`log_error` with message and trace, append the error message to the logs);
then always run the finally block (last-run upsert, `logger.close()`); the
exception, if any, propagates only after that.  An exception raised by
`close()` inside the finally block propagates instead, replacing any
in-flight one, as in Python. -/
def execute_job (env : Env) (db0 : Db) (app_settings : SettingsBlob)
    (job_agent_id job_id job_instance_id job_schedule_id : Int) : RunOutcome :=
  let cs := parseSettings app_settings
  let lw := JobLogger.init env cs.1 job_instance_id cs.2 (World.initial db0)
  let logger := lw.1
  let job_id := effectiveJobId logger job_id
  let r := runSteps env logger job_id job_instance_id job_schedule_id job_agent_id lw.2
  match r.2.2 with
  | none =>
    let w := finallyBlock env logger job_id r.2.1
    let cw := logger.close w
    { logs := r.1, world := cw.1, raised := cw.2 }
  | some msg =>
    let error_msg := "Job execution error: " ++ msg
    let w := logger.log_error env error_msg (format_exc msg) r.2.1
    let logs := r.1 ++ [error_msg]
    let w := finallyBlock env logger job_id w
    let cw := logger.close w
    { logs := logs, world := cw.1, raised := some (cw.2.getD msg) }

/-- The logger `execute_job` constructs for a run (its value, separated from
the world effects, for use in theorem statements). -/
def initLogger (env : Env) (db0 : Db) (blob : SettingsBlob) (job_instance_id : Int) :
    JobLogger :=
  (JobLogger.init env (parseSettings blob).1 job_instance_id
    (parseSettings blob).2 (World.initial db0)).1

/-- Whether a `'Last Job Run Time'` row exists for `jobId`. -/
def hasLastRun (db : Db) (jobId : Int) : Bool :=
  db.jobData.any (isLastRunRow jobId)

/-- The log entries the previous-run-time step contributes (empty when the step
is skipped or its read fails). -/
def prevPart (env : Env) (L : JobLogger) (job_id : Int) (db : Db) : List String :=
  if L.connection ∧ 0 < job_id then
    if env.prevRunReadRaises then []
    else
      match selectLastRunTime db job_id with
      | some (some t) => [prevRunMsg (t + (env.nowLocal - env.nowUtc))]
      | _ => []
  else []

/-- The log entry the weather step contributes. -/
def weatherPart (env : Env) : List String :=
  match env.weather with
  | .ok tempC tempF humidity desc => [weatherInfo tempC tempF humidity desc]
  | .urlError reason => [urlErrMsg reason]
  | .otherError msg => [procErrMsg msg]

/-- The console line the weather step emits through the logger. -/
def weatherConsoleLine (env : Env) : String :=
  match env.weather with
  | .ok tempC tempF humidity desc => progressLine env "Info" (weatherInfo tempC tempF humidity desc)
  | .urlError reason => progressLine env "Warning" (urlErrMsg reason)
  | .otherError msg => progressLine env "Warning" (procErrMsg msg)

/-- Modelled from the spec: the previous-run-time display format the spec
prescribes — the local time "formatted as MM/DD/YYYY hh:mm followed by a
lowercase am/pm suffix" (12-hour clock).  Written from the spec's words, to be
compared with the source-derived `fmtLocalRun`. -/
def specLocalFormat (t : Int) : String :=
  let ymd := dateOf t
  let h12 := if hourOf t % 12 = 0 then 12 else hourOf t % 12
  pad2 ymd.2.1 ++ "/" ++ pad2 ymd.2.2 ++ "/" ++ toString ymd.1 ++ " " ++
    pad2 h12 ++ ":" ++ pad2 (minuteOf t) ++ (if hourOf t < 12 then "am" else "pm")

/-- Every table entity written so far carries the partition key derived from
the logger's resolved `job_id` (and that id is positive). -/
def EntOk (L : JobLogger) (w : World) : Prop :=
  ∀ e ∈ w.entities, e.partitionKey = L.get_partition_key ∧ e.jobId = L.job_id ∧
    e.jobInstanceId = L.job_instance_id ∧ 0 < L.job_id

/-! ### Concrete sample data for witnesses -/

/-- An empty relational store. -/
def sampleDb : Db := ⟨[], 0, []⟩

/-- An environment in which every external dependency works: both sinks
connect, the instance resolves to job 5, the weather fetch succeeds. -/
def envAll : Env :=
  { hasPyodbc := true, hasAzureTables := true, connectOk := true,
    resolveQuery := .ok (some 5), tableConnectOk := true,
    tableCreateFails := fun _ => false, relErrorLogFails := false,
    prevRunReadRaises := false, weather := .ok "20" "68" "50" "Sunny",
    upsertFails := false, nowUtc := 0, nowLocal := 0, inject := none }

/-- Settings blob carrying both connection strings. -/
def blobFull : SettingsBlob := .parsed (some (some "db", some "tbl"))

/-! ### Basic lemmas about the world operations -/

@[simp] theorem World.print_console (w : World) (s : String) :
    (w.print s).console = w.console ++ [s] := rfl

@[simp] theorem World.print_entities (w : World) (s : String) :
    (w.print s).entities = w.entities := rfl

@[simp] theorem World.print_db (w : World) (s : String) :
    (w.print s).db = w.db := rfl

@[simp] theorem World.print_connOpen (w : World) (s : String) :
    (w.print s).connOpen = w.connOpen := rfl

@[simp] theorem World.print_errorCalls (w : World) (s : String) :
    (w.print s).errorCalls = w.errorCalls := rfl

@[simp] theorem World.print_tableOps (w : World) (s : String) :
    (w.print s).tableOps = w.tableOps := rfl

@[simp] theorem log_progress_db (env : Env) (L : JobLogger) (m lv : String) (w : World) :
    (L.log_progress env m lv w).db = w.db := by
  simp only [JobLogger.log_progress]
  split
  · split <;> rfl
  · rfl

@[simp] theorem log_progress_connOpen (env : Env) (L : JobLogger) (m lv : String) (w : World) :
    (L.log_progress env m lv w).connOpen = w.connOpen := by
  simp only [JobLogger.log_progress]
  split
  · split <;> rfl
  · rfl

@[simp] theorem log_progress_errorCalls (env : Env) (L : JobLogger) (m lv : String) (w : World) :
    (L.log_progress env m lv w).errorCalls = w.errorCalls := by
  simp only [JobLogger.log_progress]
  split
  · split <;> rfl
  · rfl

theorem log_progress_console_ext (env : Env) (L : JobLogger) (m lv : String) (w : World) :
    ∃ t, (L.log_progress env m lv w).console = w.console ++ progressLine env lv m :: t := by
  simp only [JobLogger.log_progress]
  split
  · split
    · exact ⟨[tableProgressErrLine], by simp [World.print]⟩
    · exact ⟨[], rfl⟩
  · exact ⟨[], rfl⟩

theorem log_progress_console_mono (env : Env) (L : JobLogger) (m lv s : String) (w : World)
    (h : s ∈ w.console) : s ∈ (L.log_progress env m lv w).console := by
  obtain ⟨t, ht⟩ := log_progress_console_ext env L m lv w
  rw [ht]
  exact List.mem_append_left _ h

theorem log_progress_console_self (env : Env) (L : JobLogger) (m lv : String) (w : World) :
    progressLine env lv m ∈ (L.log_progress env m lv w).console := by
  obtain ⟨t, ht⟩ := log_progress_console_ext env L m lv w
  rw [ht]
  exact List.mem_append_right _ (List.mem_cons_self _ _)

@[simp] theorem log_error_rel_entities (env : Env) (L : JobLogger) (em : String) (w : World) :
    (L.log_error_rel env em w).entities = w.entities := by
  simp only [JobLogger.log_error_rel]
  repeat' split
  all_goals rfl

@[simp] theorem log_error_rel_tableOps (env : Env) (L : JobLogger) (em : String) (w : World) :
    (L.log_error_rel env em w).tableOps = w.tableOps := by
  simp only [JobLogger.log_error_rel]
  repeat' split
  all_goals rfl

@[simp] theorem log_error_rel_connOpen (env : Env) (L : JobLogger) (em : String) (w : World) :
    (L.log_error_rel env em w).connOpen = w.connOpen := by
  simp only [JobLogger.log_error_rel]
  repeat' split
  all_goals rfl

@[simp] theorem log_error_rel_errorCalls (env : Env) (L : JobLogger) (em : String) (w : World) :
    (L.log_error_rel env em w).errorCalls = w.errorCalls := by
  simp only [JobLogger.log_error_rel]
  repeat' split
  all_goals rfl

theorem log_error_rel_console_ext (env : Env) (L : JobLogger) (em : String) (w : World) :
    ∃ t, (L.log_error_rel env em w).console = w.console ++ t := by
  simp only [JobLogger.log_error_rel]
  repeat' split
  all_goals first
    | exact ⟨[relErrLine], rfl⟩
    | exact ⟨[], by simp⟩

theorem log_error_rel_fail (env : Env) (L : JobLogger) (em : String) (w : World)
    (h1 : L.connection = true) (h2 : 0 < L.job_instance_id)
    (h3 : env.relErrorLogFails = true) :
    L.log_error_rel env em w = w.print relErrLine := by
  simp [JobLogger.log_error_rel, h1, h2, h3]

@[simp] theorem log_error_connOpen (env : Env) (L : JobLogger) (m st : String) (w : World) :
    (L.log_error env m st w).connOpen = w.connOpen := by
  simp only [JobLogger.log_error]
  repeat' split
  all_goals simp

@[simp] theorem log_error_errorCalls (env : Env) (L : JobLogger) (m st : String) (w : World) :
    (L.log_error env m st w).errorCalls = w.errorCalls ++ [(m, st)] := by
  simp only [JobLogger.log_error]
  repeat' split
  all_goals simp

@[simp] theorem log_error_rel_console (env : Env) (L : JobLogger) (em : String) (w : World) :
    (L.log_error_rel env em w).console = w.console ++
      (if L.connection = true ∧ 0 < L.job_instance_id then
        if env.relErrorLogFails = true then [relErrLine] else [] else []) := by
  simp only [JobLogger.log_error_rel]
  repeat' split
  all_goals simp_all

theorem log_error_console_ext (env : Env) (L : JobLogger) (m st : String) (w : World) :
    ∃ t, (L.log_error env m st w).console = w.console ++ errorLine env m :: t := by
  simp only [JobLogger.log_error]
  repeat' split
  all_goals first
    | (refine ⟨(if L.connection = true ∧ 0 < L.job_instance_id then
          if env.relErrorLogFails = true then [relErrLine] else [] else []) ++
            [tableErrLine], ?_⟩
       simp
       done)
    | (refine ⟨(if L.connection = true ∧ 0 < L.job_instance_id then
          if env.relErrorLogFails = true then [relErrLine] else [] else []), ?_⟩
       simp
       done)

theorem log_error_console_mono (env : Env) (L : JobLogger) (m st s : String) (w : World)
    (h : s ∈ w.console) : s ∈ (L.log_error env m st w).console := by
  obtain ⟨t, ht⟩ := log_error_console_ext env L m st w
  rw [ht]
  exact List.mem_append_left _ h

/-! ### The partition-key invariant on written entities -/

theorem EntOk_print (L : JobLogger) (w : World) (s : String) (h : EntOk L w) :
    EntOk L (w.print s) := h

theorem EntOk_log_progress (env : Env) (L : JobLogger) (m lv : String) (w : World)
    (h : EntOk L w) : EntOk L (L.log_progress env m lv w) := by
  intro e he
  simp only [JobLogger.log_progress] at he
  split at he
  · split at he
    · exact h e he
    · rename_i hc _
      simp only [List.mem_append, List.mem_singleton] at he
      rcases he with he | he
      · exact h e he
      · subst he
        exact ⟨rfl, rfl, rfl, hc.2⟩
  · exact h e he

theorem log_error_entities_sub (env : Env) (L : JobLogger) (m st : String) (w : World) :
    ∀ e ∈ (L.log_error env m st w).entities,
      e ∈ w.entities ∨ (e.partitionKey = L.get_partition_key ∧ e.jobId = L.job_id ∧
        e.jobInstanceId = L.job_instance_id ∧ 0 < L.job_id) := by
  intro e he
  simp only [JobLogger.log_error] at he
  repeat' split at he
  all_goals try simp only [log_error_rel_entities, World.print_entities, List.mem_append,
    List.mem_singleton] at he
  all_goals
    first
    | exact Or.inl he
    | (rcases he with he | he
       · exact Or.inl he
       · subst he
         exact Or.inr ⟨rfl, rfl, rfl, ‹L.table_client = true ∧ 0 < L.job_id›.2⟩)

theorem EntOk_log_error (env : Env) (L : JobLogger) (m st : String) (w : World)
    (h : EntOk L w) : EntOk L (L.log_error env m st w) := by
  intro e he
  rcases log_error_entities_sub env L m st w e he with he | hp
  · exact h e he
  · exact hp

/-! ### Lemmas about construction, the steps, and finalization -/

@[simp] theorem get_job_id_db (env : Env) (c : Bool) (i : Int) (w : World) :
    (get_job_id_from_instance env c i w).2.db = w.db := by
  simp only [get_job_id_from_instance]
  repeat' split
  all_goals rfl

@[simp] theorem get_job_id_entities (env : Env) (c : Bool) (i : Int) (w : World) :
    (get_job_id_from_instance env c i w).2.entities = w.entities := by
  simp only [get_job_id_from_instance]
  repeat' split
  all_goals rfl

@[simp] theorem get_job_id_connOpen (env : Env) (c : Bool) (i : Int) (w : World) :
    (get_job_id_from_instance env c i w).2.connOpen = w.connOpen := by
  simp only [get_job_id_from_instance]
  repeat' split
  all_goals rfl

@[simp] theorem get_job_id_errorCalls (env : Env) (c : Bool) (i : Int) (w : World) :
    (get_job_id_from_instance env c i w).2.errorCalls = w.errorCalls := by
  simp only [get_job_id_from_instance]
  repeat' split
  all_goals rfl

theorem init_world (env : Env) (cs : String) (i : Int) (tcs : String) (w : World) :
    (JobLogger.init env cs i tcs w).2.db = w.db ∧
    (JobLogger.init env cs i tcs w).2.entities = w.entities ∧
    (JobLogger.init env cs i tcs w).2.errorCalls = w.errorCalls := by
  simp only [JobLogger.init]
  repeat' split
  all_goals simp

theorem init_connOpen (env : Env) (cs : String) (i : Int) (tcs : String) (w : World) :
    (JobLogger.init env cs i tcs w).2.connOpen =
      ((JobLogger.init env cs i tcs w).1.connection || w.connOpen) := by
  simp only [JobLogger.init]
  repeat' split
  all_goals simp

theorem init_job_instance_id (env : Env) (cs : String) (i : Int) (tcs : String) (w : World) :
    (JobLogger.init env cs i tcs w).1.job_instance_id = i := rfl

theorem prevStep_logs (env : Env) (L : JobLogger) (j : Int) (logs : List String) (w : World) :
    (prevStep env L j logs w).1 = logs ++ prevPart env L j w.db := by
  simp only [prevStep, prevPart]
  repeat' split
  all_goals simp_all

theorem prevStep_db (env : Env) (L : JobLogger) (j : Int) (logs : List String) (w : World) :
    (prevStep env L j logs w).2.db = w.db := by
  simp only [prevStep]
  repeat' split
  all_goals simp

theorem prevStep_connOpen (env : Env) (L : JobLogger) (j : Int) (logs : List String) (w : World) :
    (prevStep env L j logs w).2.connOpen = w.connOpen := by
  simp only [prevStep]
  repeat' split
  all_goals simp

theorem prevStep_errorCalls (env : Env) (L : JobLogger) (j : Int) (logs : List String) (w : World) :
    (prevStep env L j logs w).2.errorCalls = w.errorCalls := by
  simp only [prevStep]
  repeat' split
  all_goals simp

theorem prevStep_console_mono (env : Env) (L : JobLogger) (j : Int) (logs : List String)
    (w : World) (s : String) (h : s ∈ w.console) : s ∈ (prevStep env L j logs w).2.console := by
  simp only [prevStep]
  repeat' split
  all_goals
    first
      | exact h
      | (simp only [World.print_console]; exact List.mem_append_left _ h)
      | exact log_progress_console_mono _ _ _ _ _ _
          (by simp only [World.print_console]; exact List.mem_append_left _ h)

theorem EntOk_prevStep (env : Env) (L : JobLogger) (j : Int) (logs : List String)
    (w : World) (h : EntOk L w) : EntOk L (prevStep env L j logs w).2 := by
  simp only [prevStep]
  repeat' split
  all_goals
    first
      | exact h
      | exact EntOk_print L w _ h
      | exact EntOk_log_progress _ _ _ _ _ (EntOk_print L w _ h)

theorem weatherStep_logs (env : Env) (L : JobLogger) (logs : List String) (w : World) :
    (weatherStep env L logs w).1 = logs ++ weatherPart env := by
  simp only [weatherStep, weatherPart]
  repeat' split
  all_goals simp_all

theorem weatherStep_db (env : Env) (L : JobLogger) (logs : List String) (w : World) :
    (weatherStep env L logs w).2.db = w.db := by
  simp only [weatherStep]
  repeat' split
  all_goals simp

theorem weatherStep_connOpen (env : Env) (L : JobLogger) (logs : List String) (w : World) :
    (weatherStep env L logs w).2.connOpen = w.connOpen := by
  simp only [weatherStep]
  repeat' split
  all_goals simp

theorem weatherStep_errorCalls (env : Env) (L : JobLogger) (logs : List String) (w : World) :
    (weatherStep env L logs w).2.errorCalls = w.errorCalls := by
  simp only [weatherStep]
  repeat' split
  all_goals simp

theorem weatherStep_console_self (env : Env) (L : JobLogger) (logs : List String) (w : World) :
    weatherConsoleLine env ∈ (weatherStep env L logs w).2.console := by
  simp only [weatherStep, weatherConsoleLine]
  repeat' split
  all_goals exact log_progress_console_self _ _ _ _ _

theorem weatherStep_console_mono (env : Env) (L : JobLogger) (logs : List String)
    (w : World) (s : String) (h : s ∈ w.console) : s ∈ (weatherStep env L logs w).2.console := by
  simp only [weatherStep]
  repeat' split
  all_goals
    exact log_progress_console_mono _ _ _ _ _ _
      (by simp only [World.print_console]; exact List.mem_append_left _ h)

theorem EntOk_weatherStep (env : Env) (L : JobLogger) (logs : List String)
    (w : World) (h : EntOk L w) : EntOk L (weatherStep env L logs w).2 := by
  simp only [weatherStep]
  repeat' split
  all_goals exact EntOk_log_progress _ _ _ _ _ (EntOk_print L w _ h)

theorem finallyBlock_entities (env : Env) (L : JobLogger) (j : Int) (w : World) :
    (finallyBlock env L j w).entities = w.entities := by
  simp only [finallyBlock]
  repeat' split
  all_goals rfl

theorem finallyBlock_connOpen (env : Env) (L : JobLogger) (j : Int) (w : World) :
    (finallyBlock env L j w).connOpen = w.connOpen := by
  simp only [finallyBlock]
  repeat' split
  all_goals rfl

theorem finallyBlock_errorCalls (env : Env) (L : JobLogger) (j : Int) (w : World) :
    (finallyBlock env L j w).errorCalls = w.errorCalls := by
  simp only [finallyBlock]
  repeat' split
  all_goals rfl

theorem finallyBlock_console_mono (env : Env) (L : JobLogger) (j : Int) (w : World)
    (s : String) (h : s ∈ w.console) : s ∈ (finallyBlock env L j w).console := by
  simp only [finallyBlock]
  repeat' split
  all_goals
    first
      | exact h
      | (simp only [World.print_console]; exact List.mem_append_left _ h)

theorem finallyBlock_db_upsert (env : Env) (L : JobLogger) (j : Int) (w : World)
    (hc : L.connection = true) (hj : 0 < j) (hu : env.upsertFails = false) :
    (finallyBlock env L j w).db = setLastRunTime w.db j env.nowUtc := by
  simp [finallyBlock, hc, hj, hu]

theorem close_entities (L : JobLogger) (w : World) :
    (L.close w).1.entities = w.entities := by
  simp only [JobLogger.close]
  repeat' split
  all_goals rfl

theorem close_db (L : JobLogger) (w : World) : (L.close w).1.db = w.db := by
  simp only [JobLogger.close]
  repeat' split
  all_goals rfl

theorem close_console (L : JobLogger) (w : World) :
    (L.close w).1.console = w.console := by
  simp only [JobLogger.close]
  repeat' split
  all_goals rfl

theorem close_errorCalls (L : JobLogger) (w : World) :
    (L.close w).1.errorCalls = w.errorCalls := by
  simp only [JobLogger.close]
  repeat' split
  all_goals rfl

theorem close_ok (L : JobLogger) (w : World) (h : w.connOpen = L.connection) :
    (L.close w).2 = none ∧ (L.close w).1.connOpen = false := by
  simp only [JobLogger.close]
  cases hc : L.connection
  · rw [hc] at h
    simp [h]
  · rw [hc] at h
    simp [h]

theorem close_snd_getD (L : JobLogger) (w : World) (msg : String)
    (h : w.connOpen = L.connection) : (L.close w).2.getD msg = msg := by
  rw [(close_ok L w h).1]
  rfl

theorem print_console_mono (w : World) (x s : String) (h : s ∈ w.console) :
    s ∈ (w.print x).console := by
  simp only [World.print_console]
  exact List.mem_append_left _ h

theorem EntOk_finallyBlock (env : Env) (L K : JobLogger) (j : Int) (w : World)
    (h : EntOk L w) : EntOk L (finallyBlock env K j w) := by
  intro e he
  rw [finallyBlock_entities] at he
  exact h e he

theorem EntOk_close (L K : JobLogger) (w : World) (h : EntOk L w) :
    EntOk L (K.close w).1 := by
  intro e he
  rw [close_entities] at he
  exact h e he

theorem injectAt_none (env : Env) (h : env.inject = none) (k : Nat) :
    injectAt env k = none := by
  simp [injectAt, h]

theorem runSteps_db (env : Env) (L : JobLogger) (j i s a : Int) (w : World) :
    (runSteps env L j i s a w).2.1.db = w.db := by
  simp only [runSteps]
  repeat' split
  all_goals simp [prevStep_db, weatherStep_db]

theorem runSteps_connOpen (env : Env) (L : JobLogger) (j i s a : Int) (w : World) :
    (runSteps env L j i s a w).2.1.connOpen = w.connOpen := by
  simp only [runSteps]
  repeat' split
  all_goals simp [prevStep_connOpen, weatherStep_connOpen]

theorem runSteps_errorCalls (env : Env) (L : JobLogger) (j i s a : Int) (w : World) :
    (runSteps env L j i s a w).2.1.errorCalls = w.errorCalls := by
  simp only [runSteps]
  repeat' split
  all_goals simp [prevStep_errorCalls, weatherStep_errorCalls]

theorem runSteps_console_mono (env : Env) (L : JobLogger) (j i s a : Int) (w : World)
    (x : String) (h : x ∈ w.console) : x ∈ (runSteps env L j i s a w).2.1.console := by
  simp only [runSteps]
  repeat' split
  all_goals
    repeat
      first
        | exact h
        | apply log_progress_console_mono
        | apply prevStep_console_mono
        | apply weatherStep_console_mono
        | apply print_console_mono

theorem EntOk_runSteps (env : Env) (L : JobLogger) (j i s a : Int) (w : World)
    (h : EntOk L w) : EntOk L (runSteps env L j i s a w).2.1 := by
  simp only [runSteps]
  repeat' split
  all_goals
    repeat
      first
        | exact h
        | apply EntOk_log_progress
        | apply EntOk_prevStep
        | apply EntOk_weatherStep
        | apply EntOk_print

theorem runSteps_inject (env : Env) (L : JobLogger) (j i s a : Int) (w : World)
    (k : Nat) (msg : String) (h : env.inject = some (k, msg)) (hk : k ≤ 6) :
    (runSteps env L j i s a w).2.2 = some msg := by
  interval_cases k
  all_goals simp [runSteps, injectAt, h]

theorem runSteps_no_inject (env : Env) (L : JobLogger) (j i s a : Int) (w : World)
    (h : env.inject = none) :
    (runSteps env L j i s a w).2.2 = none ∧
    (runSteps env L j i s a w).1 =
      [startedMsg, execInfo j i s a, pkInfo j i] ++ prevPart env L j w.db ++
        [fetchingMsg] ++ weatherPart env ++ [completedMsg] ∧
    weatherConsoleLine env ∈ (runSteps env L j i s a w).2.1.console := by
  simp only [runSteps, injectAt_none env h]
  refine ⟨trivial, ?_, ?_⟩
  · rw [weatherStep_logs, prevStep_logs]
    simp
  · apply log_progress_console_mono
    apply weatherStep_console_self

theorem log_error_console_self (env : Env) (L : JobLogger) (m st : String) (w : World) :
    errorLine env m ∈ (L.log_error env m st w).console := by
  obtain ⟨t, ht⟩ := log_error_console_ext env L m st w
  rw [ht]
  exact List.mem_append_right _ (List.mem_cons_self _ _)

theorem init_db (env : Env) (cs : String) (i : Int) (tcs : String) (w : World) :
    (JobLogger.init env cs i tcs w).2.db = w.db := (init_world env cs i tcs w).1

theorem init_entities (env : Env) (cs : String) (i : Int) (tcs : String) (w : World) :
    (JobLogger.init env cs i tcs w).2.entities = w.entities :=
  (init_world env cs i tcs w).2.1

theorem init_errorCalls (env : Env) (cs : String) (i : Int) (tcs : String) (w : World) :
    (JobLogger.init env cs i tcs w).2.errorCalls = w.errorCalls :=
  (init_world env cs i tcs w).2.2

@[simp] theorem World.initial_console (db0 : Db) : (World.initial db0).console = [] := rfl
@[simp] theorem World.initial_entities (db0 : Db) : (World.initial db0).entities = [] := rfl
@[simp] theorem World.initial_db (db0 : Db) : (World.initial db0).db = db0 := rfl
@[simp] theorem World.initial_connOpen (db0 : Db) : (World.initial db0).connOpen = false := rfl
@[simp] theorem World.initial_errorCalls (db0 : Db) : (World.initial db0).errorCalls = [] := rfl

theorem find?_append_none {α} (p : α → Bool) (l1 l2 : List α) (h : l1.find? p = none) :
    (l1 ++ l2).find? p = l2.find? p := by
  induction l1 with
  | nil => rfl
  | cons x xs ih =>
    cases hx : p x
    · rw [List.cons_append, List.find?_cons_of_neg _ (by simp [hx])]
      rw [List.find?_cons_of_neg _ (by simp [hx])] at h
      exact ih h
    · rw [List.find?_cons_of_pos _ (by simp [hx])] at h
      exact absurd h (by simp)

theorem isLastRunRow_dateUpdate (jobId : Int) (r : JobDataRow) (rid : Nat) (t : Int) :
    isLastRunRow jobId (if r.id == rid then { r with dateValue := some t } else r) =
      isLastRunRow jobId r := by
  split
  all_goals simp [isLastRunRow]

theorem hasLastRun_setLastRunTime (db : Db) (jobId : Int) (t : Int) :
    hasLastRun (setLastRunTime db jobId t) jobId = true := by
  cases hfind : selectLastRunRowId db jobId with
  | none =>
    simp only [setLastRunTime, hfind, hasLastRun, List.any_eq_true]
    refine ⟨{ id := db.nextRowId, jobId := jobId, fieldDesc := lastRunDesc,
              stringValue := none, dateValue := some t }, ?_, ?_⟩
    · simp
    · simp [isLastRunRow]
  | some rid =>
    have hf2 := hfind
    rw [selectLastRunRowId, Option.map_eq_some'] at hf2
    obtain ⟨r, hr, -⟩ := hf2
    have hmem : r ∈ db.jobData := List.mem_of_find?_eq_some hr
    have hp : isLastRunRow jobId r = true := List.find?_some hr
    simp only [setLastRunTime, hfind, hasLastRun, List.any_eq_true]
    refine ⟨if r.id == rid then { r with dateValue := some t } else r, ?_, ?_⟩
    · simpa using List.mem_map_of_mem _ hmem
    · rw [isLastRunRow_dateUpdate]
      exact hp

theorem execute_job_EntOk (env : Env) (db0 : Db) (blob : SettingsBlob) (a j i s : Int) :
    EntOk (initLogger env db0 blob i) (execute_job env db0 blob a j i s).world := by
  have h0 : EntOk (initLogger env db0 blob i)
      ((JobLogger.init env (parseSettings blob).1 i (parseSettings blob).2
        (World.initial db0)).2) := by
    intro e he
    rw [init_entities, World.initial_entities] at he
    exact absurd he (List.not_mem_nil e)
  simp only [execute_job, initLogger] at h0 ⊢
  split
  · exact EntOk_close _ _ _ (EntOk_finallyBlock _ _ _ _ _ (EntOk_runSteps _ _ _ _ _ _ _ h0))
  · exact EntOk_close _ _ _ (EntOk_finallyBlock _ _ _ _ _
      (EntOk_log_error _ _ _ _ _ (EntOk_runSteps _ _ _ _ _ _ _ h0)))

theorem execute_job_connOpen (env : Env) (db0 : Db) (blob : SettingsBlob) (a j i s : Int) :
    (execute_job env db0 blob a j i s).world.connOpen = false := by
  simp only [execute_job, initLogger]
  split
  · refine (close_ok _ _ ?_).2
    rw [finallyBlock_connOpen, runSteps_connOpen, init_connOpen]
    simp
  · refine (close_ok _ _ ?_).2
    rw [finallyBlock_connOpen, log_error_connOpen, runSteps_connOpen, init_connOpen]
    simp

theorem execute_job_no_inject (env : Env) (db0 : Db) (blob : SettingsBlob) (a j i s : Int)
    (h : env.inject = none) :
    (execute_job env db0 blob a j i s).raised = none ∧
    (execute_job env db0 blob a j i s).logs =
      [startedMsg, execInfo (effectiveJobId (initLogger env db0 blob i) j) i s a,
        pkInfo (effectiveJobId (initLogger env db0 blob i) j) i] ++
        prevPart env (initLogger env db0 blob i)
          (effectiveJobId (initLogger env db0 blob i) j) db0 ++
        [fetchingMsg] ++ weatherPart env ++ [completedMsg] ∧
    weatherConsoleLine env ∈ (execute_job env db0 blob a j i s).world.console := by
  obtain ⟨h1, h2, h3⟩ := runSteps_no_inject env (initLogger env db0 blob i)
    (effectiveJobId (initLogger env db0 blob i) j) i s a
    ((JobLogger.init env (parseSettings blob).1 i (parseSettings blob).2
      (World.initial db0)).2) h
  rw [init_db, World.initial_db] at h2
  simp only [initLogger] at h1 h2 h3
  simp only [execute_job, initLogger, h1]
  refine ⟨?_, h2, ?_⟩
  · refine (close_ok _ _ ?_).1
    rw [finallyBlock_connOpen, runSteps_connOpen, init_connOpen]
    simp
  · rw [close_console]
    exact finallyBlock_console_mono _ _ _ _ _ h3

theorem fmtLocalRun_eq_spec (t : Int) : fmtLocalRun t = specLocalFormat t := by
  unfold fmtLocalRun specLocalFormat strftime_mdY_IM strftime_p strLower
  by_cases h : hourOf t < 12
  · simp only [if_pos h]
    congr 1
  · simp only [if_neg h]
    congr 1

/-! ### The claims -/

/-- C9 counterexample: the claim's idempotency fails on the code.  After a
successful `close()` on a held connection, `self.connection` is still set
(main.py never clears it), so a second `close()` re-invokes the driver's
close on the already-closed handle, which raises `ProgrammingError` rather
than having no effect. -/
theorem claim_C9_counterexample :
    (JobLogger.close ⟨true, 12, 5, false⟩
      (JobLogger.close ⟨true, 12, 5, false⟩
        { World.initial sampleDb with connOpen := true }).1).2 =
      some closedConnErrMsg := rfl

/-- C9 (amended): `close()` releases the relational connection when one is
held and returns normally, and is safe to call when no connection exists; but
it is not idempotent: since `self.connection` is never cleared, a second
`close()` after a successful one re-invokes the driver's close on the
already-closed connection, which raises `ProgrammingError`. -/
theorem claim_C9_close_behavior (L : JobLogger) (w : World) :
    (L.connection = false → L.close w = (w, none)) ∧
    (L.connection = true → w.connOpen = true →
      (L.close w).1.connOpen = false ∧ (L.close w).2 = none) ∧
    (L.connection = true → w.connOpen = true →
      (L.close (L.close w).1).2 = some closedConnErrMsg) := by
  refine ⟨?_, ?_, ?_⟩
  · intro h
    simp [JobLogger.close, h]
  · intro h1 h2
    simp [JobLogger.close, h1, h2]
  · intro h1 h2
    simp [JobLogger.close, h1, h2]

/-- Witness for C9 (amended) at a concrete held connection: the first close
releases the handle and returns normally, the second raises. -/
theorem claim_C9_witness :
    ((JobLogger.close ⟨true, 12, 5, false⟩
        { World.initial sampleDb with connOpen := true }).1.connOpen = false ∧
      (JobLogger.close ⟨true, 12, 5, false⟩
        { World.initial sampleDb with connOpen := true }).2 = none) ∧
    (JobLogger.close ⟨true, 12, 5, false⟩
      (JobLogger.close ⟨true, 12, 5, false⟩
        { World.initial sampleDb with connOpen := true }).1).2 =
      some closedConnErrMsg :=
  ⟨(claim_C9_close_behavior ⟨true, 12, 5, false⟩
      { World.initial sampleDb with connOpen := true }).2.1 rfl rfl,
   (claim_C9_close_behavior ⟨true, 12, 5, false⟩
      { World.initial sampleDb with connOpen := true }).2.2 rfl rfl⟩

/-- C7: `log_progress` never raises for any message (the model function is
total and, when the table sink is absent or `job_id = 0`, it is exactly the
console write); it always writes the console line with the UTC timestamp
prefix; it writes a `JobProgress` entity exactly when the table sink is
present and `job_id > 0` and the write succeeds; and a failing entity write is
caught and reported to console only, leaving the entity store unchanged. -/
theorem claim_C7_log_progress (env : Env) (L : JobLogger) (m lv : String) (w : World) :
    (∃ t, (L.log_progress env m lv w).console = w.console ++ progressLine env lv m :: t) ∧
    (¬(L.table_client = true ∧ 0 < L.job_id) →
      L.log_progress env m lv w = w.print (progressLine env lv m)) ∧
    (L.table_client = true → 0 < L.job_id → env.tableCreateFails w.tableOps = false →
      (L.log_progress env m lv w).entities = w.entities ++
        [{ partitionKey := L.get_partition_key, rowKey := w.uuidCounter,
           action := "JobProgress", details := m, level := lv, ts := env.nowUtc,
           jobId := L.job_id, jobInstanceId := L.job_instance_id }]) ∧
    (L.table_client = true → 0 < L.job_id → env.tableCreateFails w.tableOps = true →
      (L.log_progress env m lv w).entities = w.entities ∧
      tableProgressErrLine ∈ (L.log_progress env m lv w).console) ∧
    (L.log_progress env m lv w).db = w.db := by
  refine ⟨log_progress_console_ext env L m lv w, ?_, ?_, ?_, log_progress_db env L m lv w⟩
  · intro h
    simp only [JobLogger.log_progress]
    rw [if_neg h]
  · intro h1 h2 h3
    simp [JobLogger.log_progress, h1, h2, h3, World.print]
  · intro h1 h2 h3
    simp [JobLogger.log_progress, h1, h2, h3, World.print]

/-- Witness for C7: a logger with the table sink and `job_id = 5`,
`job_instance_id = 12` writes exactly one `JobProgress` entity under partition
key "5-12", and with the sink disabled the call is exactly the console write. -/
theorem claim_C7_witness :
    (JobLogger.log_progress envAll ⟨true, 12, 5, true⟩ "hello" "Info"
        (World.initial sampleDb)).entities =
      [{ partitionKey := "5-12", rowKey := 0, action := "JobProgress",
         details := "hello", level := "Info", ts := 0, jobId := 5,
         jobInstanceId := 12 }] ∧
    JobLogger.log_progress envAll ⟨true, 12, 0, true⟩ "hello" "Info"
        (World.initial sampleDb) =
      (World.initial sampleDb).print (progressLine envAll "Info" "hello") := by
  constructor
  · have h := (claim_C7_log_progress envAll ⟨true, 12, 5, true⟩ "hello" "Info"
      (World.initial sampleDb)).2.2.1 rfl (by decide) rfl
    rw [h]
    rfl
  · exact (claim_C7_log_progress envAll ⟨true, 12, 0, true⟩ "hello" "Info"
      (World.initial sampleDb)).2.1 (by decide)

/-- C2: every `log_error` call attempts console, relational, and table sinks
in order (the model function is total, so nothing propagates to the caller):
the console `[ERROR]` line is always first; a raised failure in the relational
sink only adds the relational warning line and leaves the database unchanged,
and the table-store write is still attempted with the same outcome; a
table-store failure only adds the table error line and leaves the entity store
unchanged. -/
theorem claim_C2_log_error_sinks (env : Env) (L : JobLogger) (m st : String) (w : World) :
    (∃ t, (L.log_error env m st w).console = w.console ++ errorLine env m :: t) ∧
    (L.connection = true → 0 < L.job_instance_id → env.relErrorLogFails = true →
      relErrLine ∈ (L.log_error env m st w).console ∧
      (L.log_error env m st w).db = w.db) ∧
    (L.table_client = true → 0 < L.job_id → env.tableCreateFails w.tableOps = false →
      ∃ rk, (L.log_error env m st w).entities = w.entities ++
        [{ partitionKey := L.get_partition_key, rowKey := rk, action := "JobError",
           details := if st ≠ "" then m ++ "\n" ++ st else m, level := "Error",
           ts := env.nowUtc, jobId := L.job_id, jobInstanceId := L.job_instance_id }]) ∧
    (L.table_client = true → 0 < L.job_id → env.tableCreateFails w.tableOps = true →
      tableErrLine ∈ (L.log_error env m st w).console ∧
      (L.log_error env m st w).entities = w.entities) := by
  refine ⟨log_error_console_ext env L m st w, ?_, ?_, ?_⟩
  · intro h1 h2 h3
    simp only [JobLogger.log_error, log_error_rel_fail env L _ _ h1 h2 h3]
    constructor
    · repeat' split
      all_goals simp
    · repeat' split
      all_goals simp
  · intro h1 h2 h3
    simp [JobLogger.log_error, h1, h2, h3, World.print]
  · intro h1 h2 h3
    simp [JobLogger.log_error, h1, h2, h3, World.print]

/-- Witness for C2: with a connected logger whose relational sink raises, the
relational warning is printed and the `JobError` entity is still written. -/
theorem claim_C2_witness :
    relErrLine ∈ (JobLogger.log_error { envAll with relErrorLogFails := true }
      ⟨true, 12, 5, true⟩ "boom" "tb" (World.initial sampleDb)).console ∧
    (JobLogger.log_error { envAll with relErrorLogFails := true }
      ⟨true, 12, 5, true⟩ "boom" "tb" (World.initial sampleDb)).entities =
      [{ partitionKey := "5-12", rowKey := 0, action := "JobError",
         details := "boom\ntb", level := "Error", ts := 0, jobId := 5,
         jobInstanceId := 12 }] := by
  refine ⟨((claim_C2_log_error_sinks { envAll with relErrorLogFails := true }
    ⟨true, 12, 5, true⟩ "boom" "tb" (World.initial sampleDb)).2.1 rfl (by decide) rfl).1, ?_⟩
  rfl

/-- C3: the last-run-time update is an upsert keeping at most one row per
`jobId` under the fixed descriptor: starting from a store with no matching
row, the first call inserts exactly one row with value `t1`, and a second
call updates that same row in place to `t2`, leaving the row count at 1. -/
theorem claim_C3_upsert (db : Db) (jobId t1 t2 : Int)
    (h : db.jobData.filter (isLastRunRow jobId) = []) :
    ∃ r1, (setLastRunTime db jobId t1).jobData.filter (isLastRunRow jobId) = [r1] ∧
      r1.dateValue = some t1 ∧
      (setLastRunTime (setLastRunTime db jobId t1) jobId t2).jobData.filter
        (isLastRunRow jobId) = [{ r1 with dateValue := some t2 }] := by
  have hfind : db.jobData.find? (isLastRunRow jobId) = none := by
    rw [List.find?_eq_none]
    intro x hx hpx
    exact (List.filter_eq_nil_iff.mp h x hx) hpx
  have hsel : selectLastRunRowId db jobId = none := by
    simp [selectLastRunRowId, hfind]
  have hnew : isLastRunRow jobId
      { id := db.nextRowId, jobId := jobId, fieldDesc := lastRunDesc,
        stringValue := none, dateValue := some t1 } = true := by
    simp [isLastRunRow]
  have hdb1 : (setLastRunTime db jobId t1).jobData = db.jobData ++
      [{ id := db.nextRowId, jobId := jobId, fieldDesc := lastRunDesc,
         stringValue := none, dateValue := some t1 }] := by
    simp [setLastRunTime, hsel]
  have hfilter1 : (setLastRunTime db jobId t1).jobData.filter (isLastRunRow jobId) =
      [{ id := db.nextRowId, jobId := jobId, fieldDesc := lastRunDesc,
         stringValue := none, dateValue := some t1 }] := by
    rw [hdb1, List.filter_append, h, List.nil_append]
    simp [hnew]
  refine ⟨_, hfilter1, rfl, ?_⟩
  have hfind1 : (setLastRunTime db jobId t1).jobData.find? (isLastRunRow jobId) =
      some { id := db.nextRowId, jobId := jobId, fieldDesc := lastRunDesc,
             stringValue := none, dateValue := some t1 } := by
    rw [hdb1, find?_append_none _ _ _ hfind]
    exact List.find?_cons_of_pos _ hnew
  have hsel1 : selectLastRunRowId (setLastRunTime db jobId t1) jobId =
      some db.nextRowId := by
    simp [selectLastRunRowId, hfind1]
  generalize hq : setLastRunTime db jobId t1 = db1 at hdb1 hsel1 ⊢
  simp only [setLastRunTime, hsel1]
  rw [hdb1, List.filter_map]
  simp only [Function.comp_def]
  rw [List.filter_congr
    (fun r _ => isLastRunRow_dateUpdate jobId r db.nextRowId t2)]
  rw [List.filter_append, h, List.nil_append]
  simp [hnew]

/-- Witness for C3 on the empty store with `jobId = 7`, `t1 = 100`, `t2 = 200`. -/
theorem claim_C3_witness :
    ∃ r1, (setLastRunTime sampleDb 7 100).jobData.filter (isLastRunRow 7) = [r1] ∧
      r1.dateValue = some 100 ∧
      (setLastRunTime (setLastRunTime sampleDb 7 100) 7 200).jobData.filter
        (isLastRunRow 7) = [{ r1 with dateValue := some 200 }] :=
  claim_C3_upsert sampleDb 7 100 200 rfl

/-- C5: for a settings blob that is absent, malformed JSON, or missing the
`ConnectionStrings` key, both connection descriptors come out empty and
`execute_job` does not raise; the returned log sequence contains "Job started"
and "Job completed successfully!".  (The hypothesis `env.inject = none`
restricts to runs without a simulated unhandled step failure.) -/
theorem claim_C5_settings_resilient (env : Env) (db0 : Db) (blob : SettingsBlob)
    (a j i s : Int) (hinj : env.inject = none)
    (hblob : blob = .absent ∨ blob = .malformed ∨ blob = .parsed none) :
    parseSettings blob = ("", "") ∧
    (execute_job env db0 blob a j i s).raised = none ∧
    startedMsg ∈ (execute_job env db0 blob a j i s).logs ∧
    completedMsg ∈ (execute_job env db0 blob a j i s).logs := by
  obtain ⟨h1, h2, -⟩ := execute_job_no_inject env db0 blob a j i s hinj
  refine ⟨?_, h1, ?_, ?_⟩
  · rcases hblob with h | h | h
    all_goals subst h
    all_goals rfl
  · rw [h2]
    simp [startedMsg]
  · rw [h2]
    simp [completedMsg]

/-- Witness for C5: a blob whose JSON object lacks `ConnectionStrings`. -/
theorem claim_C5_witness :
    parseSettings (.parsed none) = ("", "") ∧
    (execute_job envAll sampleDb (.parsed none) 7 0 12 3).raised = none ∧
    startedMsg ∈ (execute_job envAll sampleDb (.parsed none) 7 0 12 3).logs ∧
    completedMsg ∈ (execute_job envAll sampleDb (.parsed none) 7 0 12 3).logs :=
  claim_C5_settings_resilient envAll sampleDb (.parsed none) 7 0 12 3 rfl
    (Or.inr (Or.inr rfl))

/-- C6: a weather fetch failing at the network level (`URLError`) or with a
malformed response (any other exception) is caught: the run does not raise,
the failure is logged as a Warning-level progress event (its console line
carries the `[Warning]` level and its message joins the log sequence), and the
final log entry is still "Job completed successfully!". -/
theorem claim_C6_weather_nonfatal (env : Env) (db0 : Db) (blob : SettingsBlob)
    (a j i s : Int) (r : String) (hinj : env.inject = none) :
    (execute_job env db0 blob a j i s).raised = none ∧
    (execute_job env db0 blob a j i s).logs.getLast? = some completedMsg ∧
    (env.weather = .urlError r →
      urlErrMsg r ∈ (execute_job env db0 blob a j i s).logs ∧
      progressLine env "Warning" (urlErrMsg r) ∈
        (execute_job env db0 blob a j i s).world.console) ∧
    (env.weather = .otherError r →
      procErrMsg r ∈ (execute_job env db0 blob a j i s).logs ∧
      progressLine env "Warning" (procErrMsg r) ∈
        (execute_job env db0 blob a j i s).world.console) := by
  obtain ⟨h1, h2, h3⟩ := execute_job_no_inject env db0 blob a j i s hinj
  refine ⟨h1, ?_, ?_, ?_⟩
  · rw [h2]
    exact List.getLast?_concat _
  · intro hw2
    constructor
    · rw [h2]
      simp [weatherPart, hw2]
    · have h4 := h3
      simp only [weatherConsoleLine, hw2] at h4
      exact h4
  · intro hw2
    constructor
    · rw [h2]
      simp [weatherPart, hw2]
    · have h4 := h3
      simp only [weatherConsoleLine, hw2] at h4
      exact h4

/-- Witness for C6: a timed-out weather fetch (a `URLError` with reason
"timed out") still ends the run with "Job completed successfully!". -/
theorem claim_C6_witness :
    (execute_job { envAll with weather := .urlError "timed out" } sampleDb blobFull
      7 0 12 3).raised = none ∧
    (execute_job { envAll with weather := .urlError "timed out" } sampleDb blobFull
      7 0 12 3).logs.getLast? = some completedMsg ∧
    urlErrMsg "timed out" ∈ (execute_job { envAll with weather := .urlError "timed out" }
      sampleDb blobFull 7 0 12 3).logs := by
  have h := claim_C6_weather_nonfatal { envAll with weather := .urlError "timed out" }
    sampleDb blobFull 7 0 12 3 "timed out" rfl
  exact ⟨h.1, h.2.1, (h.2.2.1 rfl).1⟩

/-- C4: every table-store entity written during a run carries the one
partition key derived from the logger's resolved `job_id` and the instance id
(and a positive resolved id); when the resolved `job_id` is 0 no entity is
written at all; and for `job_id = 5`, `job_instance_id = 12` the partition key
is exactly "5-12". -/
theorem claim_C4_partition_key (env : Env) (db0 : Db) (blob : SettingsBlob)
    (a j i s : Int) :
    (∀ e ∈ (execute_job env db0 blob a j i s).world.entities,
      e.partitionKey = (initLogger env db0 blob i).get_partition_key ∧
      e.jobId = (initLogger env db0 blob i).job_id ∧
      0 < (initLogger env db0 blob i).job_id) ∧
    ((initLogger env db0 blob i).job_id = 0 →
      (execute_job env db0 blob a j i s).world.entities = []) ∧
    (∀ L : JobLogger, L.job_id = 5 → L.job_instance_id = 12 →
      L.get_partition_key = "5-12") := by
  have hE := execute_job_EntOk env db0 blob a j i s
  refine ⟨?_, ?_, ?_⟩
  · intro e he
    obtain ⟨hp, hj, -, hpos⟩ := hE e he
    exact ⟨hp, hj, hpos⟩
  · intro h0
    rw [List.eq_nil_iff_forall_not_mem]
    intro e he
    have hpos := (hE e he).2.2.2
    rw [h0] at hpos
    exact lt_irrefl 0 hpos
  · intro L h5 h12
    simp only [JobLogger.get_partition_key, h5, h12]
    rfl

/-- Witness for C4: in a fully working run resolving job 5 for instance 12,
the partition key is "5-12" and every written entity carries it. -/
theorem claim_C4_witness :
    (initLogger envAll sampleDb blobFull 12).get_partition_key = "5-12" ∧
    ((execute_job envAll sampleDb blobFull 7 0 12 3).world.entities.all
      (fun e => e.partitionKey == "5-12")) = true := by
  have h := claim_C4_partition_key envAll sampleDb blobFull 7 0 12 3
  have hpk : (initLogger envAll sampleDb blobFull 12).get_partition_key = "5-12" :=
    h.2.2 (initLogger envAll sampleDb blobFull 12) rfl rfl
  refine ⟨hpk, ?_⟩
  rw [List.all_eq_true]
  intro e he
  have hp := (h.1 e he).1
  rw [hpk] at hp
  simp [hp]

/-- C10: the table sink is governed by the logger's internally resolved job
id, never the caller-supplied one: when resolution yields 0 but the caller
supplied a positive `job_id`, no table entity is written during the whole run,
even though the announced partition key in the log messages uses the supplied
id. -/
theorem claim_C10_resolved_id_governs (env : Env) (db0 : Db) (blob : SettingsBlob)
    (a j i s : Int) (h0 : (initLogger env db0 blob i).job_id = 0) (hj : 0 < j)
    (hinj : env.inject = none) :
    (execute_job env db0 blob a j i s).world.entities = [] ∧
    pkInfo j i ∈ (execute_job env db0 blob a j i s).logs := by
  constructor
  · rw [List.eq_nil_iff_forall_not_mem]
    intro e he
    have hpos := (execute_job_EntOk env db0 blob a j i s e he).2.2.2
    rw [h0] at hpos
    exact lt_irrefl 0 hpos
  · obtain ⟨-, h2, -⟩ := execute_job_no_inject env db0 blob a j i s hinj
    rw [h2]
    have hj2 : effectiveJobId (initLogger env db0 blob i) j = j := by
      simp [effectiveJobId, h0]
    rw [hj2]
    simp

/-- Witness for C10: with no relational driver the resolved id is 0; for a
caller-supplied `job_id = 5`, instance 12, the table sink is present but no
entity is written, while the announced partition key message uses "5-12". -/
theorem claim_C10_witness :
    (execute_job { envAll with hasPyodbc := false } sampleDb blobFull
      7 5 12 3).world.entities = [] ∧
    pkInfo 5 12 ∈ (execute_job { envAll with hasPyodbc := false } sampleDb blobFull
      7 5 12 3).logs :=
  claim_C10_resolved_id_governs { envAll with hasPyodbc := false } sampleDb blobFull
    7 5 12 3 rfl (by decide) rfl

/-- C8: when a previous run time exists (connected, positive job id, readable
row with a non-null value `t`), the emitted message is built from the stored
UTC value shifted by the offset (current local time minus current UTC time),
and the code's format — `strftime("%m/%d/%Y %I:%M")` plus the lowercased
`strftime("%p")` — coincides with the spec's "MM/DD/YYYY hh:mm followed by a
lowercase am/pm suffix" for every instant. -/
theorem claim_C8_prev_run_format (env : Env) (db0 : Db) (blob : SettingsBlob)
    (a j i s t : Int) (hinj : env.inject = none)
    (hc : (initLogger env db0 blob i).connection = true)
    (hj : 0 < effectiveJobId (initLogger env db0 blob i) j)
    (hr : env.prevRunReadRaises = false)
    (ht : selectLastRunTime db0 (effectiveJobId (initLogger env db0 blob i) j) =
      some (some t)) :
    prevRunMsg (t + (env.nowLocal - env.nowUtc)) ∈
      (execute_job env db0 blob a j i s).logs ∧
    ∀ u : Int, fmtLocalRun u = specLocalFormat u := by
  obtain ⟨-, h2, -⟩ := execute_job_no_inject env db0 blob a j i s hinj
  refine ⟨?_, fmtLocalRun_eq_spec⟩
  rw [h2]
  have hprev : prevPart env (initLogger env db0 blob i)
      (effectiveJobId (initLogger env db0 blob i) j) db0 =
      [prevRunMsg (t + (env.nowLocal - env.nowUtc))] := by
    simp [prevPart, hc, hj, hr, ht]
  rw [hprev]
  simp

/-- Witness for C8: a stored run time of 14:00 UTC on 1970-01-01 with a local
clock 8 hours behind UTC is announced as "01/01/1970 06:00am". -/
theorem claim_C8_witness :
    prevRunMsg 21600 ∈ (execute_job { envAll with nowLocal := -28800 }
      (⟨[⟨0, 5, "Last Job Run Time", none, some 50400⟩], 1, []⟩ : Db) blobFull
      7 0 12 3).logs ∧
    prevRunMsg 21600 = "Previous time the job was run: 01/01/1970 06:00am" := by
  have h := claim_C8_prev_run_format { envAll with nowLocal := -28800 }
    (⟨[⟨0, 5, "Last Job Run Time", none, some 50400⟩], 1, []⟩ : Db) blobFull
    7 0 12 3 50400 rfl rfl (by decide) rfl rfl
  exact ⟨h.1, rfl⟩

/-- C1: any unhandled failure raised inside the try body (at any of its
statement indices 0-6; weather and previous-run-time failures are handled
separately and never reach here) leads to exactly one `log_error` invocation
carrying the failure's message and trace, the `[ERROR]` console line, and the
original failure re-raised to the caller only after finalization: the
connection is released and, when a connection is held with a positive job id
and the upsert succeeds, the last-run-time row exists in the final store. -/
theorem claim_C1_failure_path (env : Env) (db0 : Db) (blob : SettingsBlob)
    (a j i s : Int) (k : Nat) (msg : String)
    (h : env.inject = some (k, msg)) (hk : k ≤ 6) :
    (execute_job env db0 blob a j i s).raised = some msg ∧
    (execute_job env db0 blob a j i s).world.errorCalls =
      [("Job execution error: " ++ msg, format_exc msg)] ∧
    errorLine env ("Job execution error: " ++ msg) ∈
      (execute_job env db0 blob a j i s).world.console ∧
    (execute_job env db0 blob a j i s).world.connOpen = false ∧
    ((initLogger env db0 blob i).connection = true →
      0 < effectiveJobId (initLogger env db0 blob i) j →
      env.upsertFails = false →
      hasLastRun (execute_job env db0 blob a j i s).world.db
        (effectiveJobId (initLogger env db0 blob i) j) = true) := by
  have hr := runSteps_inject env (initLogger env db0 blob i)
    (effectiveJobId (initLogger env db0 blob i) j) i s a
    ((JobLogger.init env (parseSettings blob).1 i (parseSettings blob).2
      (World.initial db0)).2) k msg h hk
  simp only [initLogger] at hr
  refine ⟨?_, ?_, ?_, ?_, ?_⟩
  · simp only [execute_job, hr]
    congr 1
    apply close_snd_getD
    rw [finallyBlock_connOpen, log_error_connOpen, runSteps_connOpen, init_connOpen]
    simp
  · simp only [execute_job, hr]
    rw [close_errorCalls, finallyBlock_errorCalls, log_error_errorCalls,
      runSteps_errorCalls, init_errorCalls, World.initial_errorCalls,
      List.nil_append]
  · simp only [execute_job, hr]
    rw [close_console]
    apply finallyBlock_console_mono
    apply log_error_console_self
  · exact execute_job_connOpen env db0 blob a j i s
  · intro hc hj hu
    simp only [initLogger] at hc hj
    simp only [execute_job, hr]
    rw [close_db, finallyBlock_db_upsert env _ _ _ hc hj hu]
    exact hasLastRun_setLastRunTime _ _ _

/-- Witness for C1: a failure "boom" injected at statement index 3 of a fully
working run is re-raised, `log_error` is called exactly once with message and
trace, and the last-run-time row is still written. -/
theorem claim_C1_witness :
    (execute_job { envAll with inject := some (3, "boom") } sampleDb blobFull
      7 0 12 3).raised = some "boom" ∧
    (execute_job { envAll with inject := some (3, "boom") } sampleDb blobFull
      7 0 12 3).world.errorCalls =
      [("Job execution error: boom", format_exc "boom")] ∧
    hasLastRun (execute_job { envAll with inject := some (3, "boom") } sampleDb
      blobFull 7 0 12 3).world.db 5 = true := by
  have h := claim_C1_failure_path { envAll with inject := some (3, "boom") }
    sampleDb blobFull 7 0 12 3 3 "boom" rfl (by decide)
  exact ⟨h.1, h.2.1, h.2.2.2.2 rfl (by decide) rfl⟩
